import Mathlib

/-!
# GreenCart Logistics — verification of the delivery-simulation core

Shallow embedding of the GreenCart delivery-simulation models
(`order.model.js`, `driver.model.js`, `simulation.model.js` and the route
model) and proofs about the profit calculator, delivery-time estimator,
on-time evaluator, fatigue tracker, delivery-stats updater, ROI formula,
pre-save finalize hook, and the HH:MM time-format validator.

JavaScript numbers are modelled as rationals (`ℚ`); `Math.round` is
`⌊x + 1/2⌋`, `Math.ceil` is `⌈x⌉`; the tri-state `isOnTime`
(`true`/`false`/`null`) is `Option Bool`; a possibly-unset numeric field
is `Option ℚ`.
-/

namespace GreenCart

/-- JavaScript `Math.round`: round half toward +∞, i.e. `⌊q + 1/2⌋`. -/
def jround (q : ℚ) : ℤ := ⌊q + 1/2⌋

/-- `Math.round(q * 100) / 100` — round to 2 decimal places, as in
`calculateProfit`. -/
def round2 (q : ℚ) : ℚ := (jround (q * 100) : ℚ) / 100

/-- Traffic level enum of the route schema (`Low`/`Medium`/`High`). -/
inductive TrafficLevel
  | Low
  | Medium
  | High
  deriving DecidableEq, Repr

/-- The route fields the simulation core reads (`route.model.js`). -/
structure Route where
  distanceKm : ℚ
  trafficLevel : TrafficLevel
  baseTimeMin : ℚ
  deriving DecidableEq, Repr

/-- The `trafficMultiplier` table inside `calculateDeliveryTime`:
Low ×1.0, Medium ×1.1, High ×1.2. -/
def trafficMultiplier : TrafficLevel → ℚ
  | .Low => 1
  | .Medium => 11/10
  | .High => 6/5

/-- `routeSchema.methods.calculateDeliveryTime(driverFatigued)`:
start from `baseTimeMin`; if fatigued, `Math.ceil(t * 1.3)`; then
`Math.ceil(t * trafficMultiplier[level])`. -/
def calculateDeliveryTime (r : Route) (driverFatigued : Bool) : ℤ :=
  let t₁ : ℚ := if driverFatigued then ((⌈r.baseTimeMin * (13/10)⌉ : ℤ) : ℚ) else r.baseTimeMin
  ⌈t₁ * trafficMultiplier r.trafficLevel⌉

/-- `routeSchema.virtual('allowedDeliveryTime')`: `baseTimeMin + 10`. -/
def allowedDeliveryTime (r : Route) : ℚ := r.baseTimeMin + 10

/-- `routeSchema.methods.isDeliveryOnTime(actualDeliveryTimeMin, driverFatigued)`:
`actual <= calculateDeliveryTime(driverFatigued) + 10`. -/
def isDeliveryOnTime (r : Route) (actualDeliveryTimeMin : ℚ) (driverFatigued : Bool) : Bool :=
  decide (actualDeliveryTimeMin ≤ (calculateDeliveryTime r driverFatigued : ℚ) + 10)

/-- The order fields `calculateProfit` reads and writes (`order.model.js`). -/
structure Order where
  valueRs : ℚ
  penalty : ℚ
  bonus : ℚ
  fuelCost : ℚ
  profit : ℚ
  isOnTime : Option Bool
  deriving DecidableEq, Repr

/-- `orderSchema.methods.calculateProfit(route, isOnTime)` — computes
`fuelCost`, `penalty`, `bonus`, rounded `profit`, and writes them (and
`isOnTime`) onto the order; the returned record carries the same values,
so the updated order captures the whole effect. -/
def calculateProfit (o : Order) (route : Option Route) (isOnTime : Option Bool) : Order :=
  let fuelCost : ℚ :=
    match route with
    | none => 0
    | some r => r.distanceKm * 5 + (if r.trafficLevel = .High then r.distanceKm * 2 else 0)
  let penalty : ℚ := if isOnTime = some false then 50 else 0
  let bonus : ℚ := if o.valueRs > 1000 ∧ isOnTime = some true then o.valueRs * (1/10) else 0
  let profit : ℚ := o.valueRs + bonus - penalty - fuelCost
  { o with
    penalty := penalty
    bonus := bonus
    fuelCost := fuelCost
    profit := round2 profit
    isOnTime := isOnTime }

/-- Spec-side fuel cost: `distanceKm * 5`, plus `distanceKm * 2` when
`trafficLevel == High`; `0` when no route is given. -/
def fuelCostSpec : Option Route → ℚ
  | none => 0
  | some r => if r.trafficLevel = .High then r.distanceKm * 5 + r.distanceKm * 2 else r.distanceKm * 5

/-- Spec-side penalty: `50` exactly when `isOnTime == false`, else `0`. -/
def penaltySpec (isOnTime : Option Bool) : ℚ :=
  if isOnTime = some false then 50 else 0

/-- Spec-side bonus: `valueRs * 0.10` exactly when `valueRs > 1000` and
`isOnTime == true`, else `0`. -/
def bonusSpec (valueRs : ℚ) (isOnTime : Option Bool) : ℚ :=
  if valueRs > 1000 ∧ isOnTime = some true then valueRs / 10 else 0

end GreenCart

namespace GreenCart

/-- Claim C1: `calculateProfit` returns fuel cost `distanceKm*5` (+`distanceKm*2`
when High; 0 with no route), penalty 50 iff `isOnTime = false`, bonus
`valueRs*0.10` iff `valueRs > 1000 ∧ isOnTime = true`, profit rounded to two
decimals, writes all of them plus `isOnTime` onto the order; Scenario A
(`distanceKm=10`, High, `valueRs=1200`, on time) yields fuelCost 70, bonus 120,
penalty 0, profit 1250. -/
theorem calculateProfit_matches_spec :
    (∀ (o : Order) (r : Option Route) (t : Option Bool),
      (calculateProfit o r t).fuelCost = fuelCostSpec r ∧
      (calculateProfit o r t).penalty = penaltySpec t ∧
      (calculateProfit o r t).bonus = bonusSpec o.valueRs t ∧
      (calculateProfit o r t).profit =
        round2 (o.valueRs + bonusSpec o.valueRs t - penaltySpec t - fuelCostSpec r) ∧
      (calculateProfit o r t).isOnTime = t ∧
      (calculateProfit o r t).valueRs = o.valueRs) ∧
    ((calculateProfit ⟨1200, 0, 0, 0, 0, none⟩ (some ⟨10, .High, 30⟩) (some true)).fuelCost = 70 ∧
     (calculateProfit ⟨1200, 0, 0, 0, 0, none⟩ (some ⟨10, .High, 30⟩) (some true)).bonus = 120 ∧
     (calculateProfit ⟨1200, 0, 0, 0, 0, none⟩ (some ⟨10, .High, 30⟩) (some true)).penalty = 0 ∧
     (calculateProfit ⟨1200, 0, 0, 0, 0, none⟩ (some ⟨10, .High, 30⟩) (some true)).profit = 1250) := by
  constructor
  · intro o r t
    have hfuel : (calculateProfit o r t).fuelCost = fuelCostSpec r := by
      cases r with
      | none => rfl
      | some r =>
        simp only [calculateProfit, fuelCostSpec]
        split <;> ring
    have hbonus : (calculateProfit o r t).bonus = bonusSpec o.valueRs t := by
      simp only [calculateProfit, bonusSpec]
      split <;> ring
    refine ⟨hfuel, rfl, hbonus, ?_, rfl, rfl⟩
    simp only [calculateProfit, fuelCostSpec, bonusSpec, penaltySpec]
    congr 1
    cases r with
    | none => split_ifs <;> ring
    | some r =>
      rcases eq_or_ne r.trafficLevel .High with hH | hH <;>
        simp only [hH, if_pos, if_neg, ne_eq, not_false_iff] <;>
        split_ifs <;> ring
  · refine ⟨by norm_num [calculateProfit], by norm_num [calculateProfit],
      by norm_num [calculateProfit], ?_⟩
    norm_num [calculateProfit, round2, jround]

/-- Spec-side delivery-time estimate, following the spec's words: base is
`baseTimeMin`; if fatigued, multiply by 1.3 and round up; then multiply by
the traffic multiplier (Low ×1.0, Medium ×1.1, High ×1.2) and round up
again — two independent ceilings, fatigue first, traffic second. -/
def estimateSpec (r : Route) (fatigued : Bool) : ℤ :=
  let afterFatigue : ℚ := if fatigued then ((⌈r.baseTimeMin * (13/10)⌉ : ℤ) : ℚ) else r.baseTimeMin
  let multiplier : ℚ :=
    match r.trafficLevel with
    | .Low => 1
    | .Medium => 11/10
    | .High => 6/5
  ⌈afterFatigue * multiplier⌉

/-- Claim C2: `calculateDeliveryTime` applies the fatigue ×1.3 ceiling first,
then the traffic-multiplier ceiling (Low 1.0, Medium 1.1, High 1.2), in that
order; Scenario C: `baseTimeMin=60`, Medium traffic, fatigued gives
`⌈60*1.3⌉ = 78` and then `⌈78*1.1⌉ = 86` minutes. -/
theorem calculateDeliveryTime_matches_spec :
    (∀ (r : Route) (fatigued : Bool), calculateDeliveryTime r fatigued = estimateSpec r fatigued) ∧
    trafficMultiplier .Low = 1 ∧ trafficMultiplier .Medium = 11/10 ∧
    trafficMultiplier .High = 6/5 ∧
    (⌈(60 : ℚ) * (13/10)⌉ : ℤ) = 78 ∧
    calculateDeliveryTime ⟨10, .Medium, 60⟩ true = 86 := by
  refine ⟨?_, rfl, rfl, rfl, by norm_num [Int.ceil_eq_iff], ?_⟩
  · intro r fatigued
    cases r with
    | mk d lvl base => cases lvl <;> rfl
  · show (⌈(if true then ((⌈(60 : ℚ) * (13/10)⌉ : ℤ) : ℚ) else 60) * trafficMultiplier .Medium⌉ : ℤ) = 86
    norm_num [trafficMultiplier, Int.ceil_eq_iff]

/-- Concrete route used to separate `allowedDeliveryTime` from the
fatigue-and-traffic-adjusted estimate. -/
def mediumRoute : Route := ⟨10, .Medium, 60⟩

/-- Claim C3 counterexample: the route accessor `allowedDeliveryTime` equals
`baseTimeMin + 10` — for `baseTimeMin=60`, Medium traffic it is `70`, while
`estimate(route, fatigued=true) + 10 = 96` — so the allowed delivery time of
the code is not everywhere the estimate plus 10. -/
theorem allowedDeliveryTime_not_estimate_plus_ten :
    allowedDeliveryTime mediumRoute = 70 ∧
    (calculateDeliveryTime mediumRoute true : ℚ) + 10 = 96 ∧
    (70 : ℚ) ≠ 96 := by
  have h : calculateDeliveryTime mediumRoute true = 86 := by
    simp only [calculateDeliveryTime, mediumRoute, trafficMultiplier]
    norm_num [Int.ceil_eq_iff]
  refine ⟨by norm_num [allowedDeliveryTime, mediumRoute], by rw [h]; norm_num, by norm_num⟩

/-- Claim C3 (amended): inside `isDeliveryOnTime` the allowed time is
`calculateDeliveryTime(route, fatigued) + 10` and the delivery is judged
on-time exactly when `actualMinutes` is at most that; the route's
`allowedDeliveryTime` accessor, by contrast, is `baseTimeMin + 10`, a grace
window on `baseTimeMin` alone. -/
theorem isDeliveryOnTime_iff_within_estimate_plus_ten :
    ∀ (r : Route) (actual : ℚ) (fatigued : Bool),
      (isDeliveryOnTime r actual fatigued = true ↔
        actual ≤ (calculateDeliveryTime r fatigued : ℚ) + 10) ∧
      allowedDeliveryTime r = r.baseTimeMin + 10 := by
  intro r actual fatigued
  exact ⟨by simp [isDeliveryOnTime], rfl⟩

/-- Fatigue-level enum of the driver schema (`normal`/`tired`/`exhausted`). -/
inductive FatigueLevel
  | normal
  | tired
  | exhausted
  deriving DecidableEq, Repr

/-- The driver fields the simulation core reads and writes
(`driver.model.js`). -/
structure Driver where
  shiftHours : ℚ
  pastWeekHours : List ℚ
  isActive : Bool
  efficiency : ℚ
  totalDeliveries : ℕ
  onTimeDeliveries : ℕ
  currentDayHours : ℚ
  fatigueLevel : FatigueLevel
  deriving DecidableEq, Repr

/-- `driverSchema.methods.updateDailyHours(hoursWorked)`: `shift()` the
oldest entry off `pastWeekHours`, `push(hoursWorked)`, then set
`fatigueLevel` from the number of tracked days with hours > 8
(`>= 3` exhausted, `>= 1` tired, else normal). -/
def updateDailyHours (d : Driver) (hoursWorked : ℚ) : Driver :=
  let week := d.pastWeekHours.tail ++ [hoursWorked]
  let overworkDays := (week.filter (fun h => decide (h > 8))).length
  { d with
    pastWeekHours := week
    fatigueLevel :=
      if overworkDays ≥ 3 then .exhausted
      else if overworkDays ≥ 1 then .tired
      else .normal }

/-- `driverSchema.methods.updateDeliveryStats(wasOnTime)`: increment
`totalDeliveries`, increment `onTimeDeliveries` when on time, then set
`efficiency = totalDeliveries > 0 ? Math.round(onTime/total*100) : 100`. -/
def updateDeliveryStats (d : Driver) (wasOnTime : Bool) : Driver :=
  let total := d.totalDeliveries + 1
  let onTime := d.onTimeDeliveries + (if wasOnTime then 1 else 0)
  { d with
    totalDeliveries := total
    onTimeDeliveries := onTime
    efficiency :=
      if total > 0 then ((jround ((onTime : ℚ) / (total : ℚ) * 100)) : ℚ) else 100 }

end GreenCart

namespace GreenCart

/-- Claim C4: after `updateDailyHours`, with `c` the number of the 7 tracked
days whose hours exceed 8, the fatigue level is exhausted iff `c ≥ 3`, tired
iff `c = 1 ∨ c = 2`, and normal iff `c = 0`. -/
theorem fatigue_classification (d : Driver) (hoursWorked : ℚ)
    (hlen : d.pastWeekHours.length = 7) :
    (updateDailyHours d hoursWorked).pastWeekHours.length = 7 ∧
    (((updateDailyHours d hoursWorked).fatigueLevel = .exhausted ↔
        3 ≤ ((updateDailyHours d hoursWorked).pastWeekHours.filter
          (fun h => decide (h > 8))).length) ∧
      ((updateDailyHours d hoursWorked).fatigueLevel = .tired ↔
        (((updateDailyHours d hoursWorked).pastWeekHours.filter
          (fun h => decide (h > 8))).length = 1 ∨
         ((updateDailyHours d hoursWorked).pastWeekHours.filter
          (fun h => decide (h > 8))).length = 2)) ∧
      ((updateDailyHours d hoursWorked).fatigueLevel = .normal ↔
        ((updateDailyHours d hoursWorked).pastWeekHours.filter
          (fun h => decide (h > 8))).length = 0)) := by
  have hlen7 : (updateDailyHours d hoursWorked).pastWeekHours.length = 7 := by
    simp only [updateDailyHours, List.length_append, List.length_tail, hlen,
      List.length_singleton]
  refine ⟨hlen7, ?_⟩
  simp only [updateDailyHours]
  set n := ((d.pastWeekHours.tail ++ [hoursWorked]).filter (fun h => decide (h > 8))).length with hn
  split_ifs with h₁ h₂ <;> refine ⟨?_, ?_, ?_⟩ <;> simp <;> omega

/-- Witness for C4 at a concrete driver: one overwork day after the update
gives fatigue level `tired`. -/
theorem fatigue_classification_witness :
    (Driver.mk 8 [9, 0, 0, 0, 0, 0, 0] true 100 0 0 0 .normal).pastWeekHours.length = 7 ∧
    ((updateDailyHours (Driver.mk 8 [9, 0, 0, 0, 0, 0, 0] true 100 0 0 0 .normal) 10).fatigueLevel = .tired ↔
      (((updateDailyHours (Driver.mk 8 [9, 0, 0, 0, 0, 0, 0] true 100 0 0 0 .normal) 10).pastWeekHours.filter
        (fun h => decide (h > 8))).length = 1 ∨
       ((updateDailyHours (Driver.mk 8 [9, 0, 0, 0, 0, 0, 0] true 100 0 0 0 .normal) 10).pastWeekHours.filter
        (fun h => decide (h > 8))).length = 2)) :=
  ⟨by simp, (fatigue_classification (Driver.mk 8 [9, 0, 0, 0, 0, 0, 0] true 100 0 0 0 .normal)
      10 (by simp)).2.2.1⟩

/-- Claim C9: `updateDailyHours` drops the oldest entry and appends the new
one, so a 7-entry `pastWeekHours` still has exactly 7 entries afterwards. -/
theorem pastWeekHours_length_preserved (d : Driver) (hoursWorked : ℚ)
    (hlen : d.pastWeekHours.length = 7) :
    (updateDailyHours d hoursWorked).pastWeekHours.length = 7 := by
  simp only [updateDailyHours, List.length_append, List.length_tail, hlen,
    List.length_singleton]

/-- Witness for C9 at a concrete driver. -/
theorem pastWeekHours_length_preserved_witness :
    (Driver.mk 8 [1, 2, 3, 4, 5, 6, 7] true 100 0 0 0 .normal).pastWeekHours.length = 7 ∧
    (updateDailyHours (Driver.mk 8 [1, 2, 3, 4, 5, 6, 7] true 100 0 0 0 .normal) 9).pastWeekHours.length = 7 :=
  ⟨by simp, pastWeekHours_length_preserved
    (Driver.mk 8 [1, 2, 3, 4, 5, 6, 7] true 100 0 0 0 .normal) 9 (by simp)⟩

/-- `Math.round` of a nonnegative quantity is nonnegative. -/
lemma jround_nonneg {q : ℚ} (h : 0 ≤ q) : 0 ≤ jround q := by
  unfold jround
  exact Int.le_floor.mpr (by push_cast; linarith)

/-- `Math.round` of a quantity at most 100 is at most 100. -/
lemma jround_le_100 {q : ℚ} (h : q ≤ 100) : jround q ≤ 100 := by
  unfold jround
  have : (⌊q + 1/2⌋ : ℤ) < 101 := Int.floor_lt.mpr (by push_cast; linarith)
  omega

/-- Claim C10: `updateDeliveryStats` adds 1 to `totalDeliveries`, adds 1 to
`onTimeDeliveries` exactly when the delivery was on time, and sets
`efficiency = round(onTime/total * 100)`; given the counters were consistent
before, afterwards `onTimeDeliveries ≤ totalDeliveries` and the efficiency
lies in `[0, 100]`. -/
theorem updateDeliveryStats_spec (d : Driver) (wasOnTime : Bool)
    (hc : d.onTimeDeliveries ≤ d.totalDeliveries) :
    (updateDeliveryStats d wasOnTime).totalDeliveries = d.totalDeliveries + 1 ∧
    (updateDeliveryStats d wasOnTime).onTimeDeliveries =
      d.onTimeDeliveries + (if wasOnTime then 1 else 0) ∧
    (updateDeliveryStats d wasOnTime).efficiency =
      ((jround (((updateDeliveryStats d wasOnTime).onTimeDeliveries : ℚ) /
        ((updateDeliveryStats d wasOnTime).totalDeliveries : ℚ) * 100)) : ℚ) ∧
    (updateDeliveryStats d wasOnTime).onTimeDeliveries ≤
      (updateDeliveryStats d wasOnTime).totalDeliveries ∧
    0 ≤ (updateDeliveryStats d wasOnTime).efficiency ∧
    (updateDeliveryStats d wasOnTime).efficiency ≤ 100 := by
  have htot : (updateDeliveryStats d wasOnTime).totalDeliveries = d.totalDeliveries + 1 := rfl
  have hon : (updateDeliveryStats d wasOnTime).onTimeDeliveries =
      d.onTimeDeliveries + (if wasOnTime then 1 else 0) := rfl
  have hle : (updateDeliveryStats d wasOnTime).onTimeDeliveries ≤
      (updateDeliveryStats d wasOnTime).totalDeliveries := by
    rw [htot, hon]; split_ifs <;> omega
  have heff : (updateDeliveryStats d wasOnTime).efficiency =
      ((jround (((updateDeliveryStats d wasOnTime).onTimeDeliveries : ℚ) /
        ((updateDeliveryStats d wasOnTime).totalDeliveries : ℚ) * 100)) : ℚ) := by
    simp only [updateDeliveryStats]
    rw [if_pos (Nat.succ_pos d.totalDeliveries)]
  set q : ℚ := ((updateDeliveryStats d wasOnTime).onTimeDeliveries : ℚ) /
      ((updateDeliveryStats d wasOnTime).totalDeliveries : ℚ) * 100 with hq
  have hqpos : (0 : ℚ) ≤ q := by
    apply mul_nonneg _ (by norm_num)
    positivity
  have hq100 : q ≤ 100 := by
    have hpos : (0 : ℚ) < ((updateDeliveryStats d wasOnTime).totalDeliveries : ℚ) := by
      rw [htot]; positivity
    have hdiv : ((updateDeliveryStats d wasOnTime).onTimeDeliveries : ℚ) /
        ((updateDeliveryStats d wasOnTime).totalDeliveries : ℚ) ≤ 1 :=
      (div_le_one hpos).mpr (by exact_mod_cast hle)
    calc q ≤ 1 * 100 := by rw [hq]; nlinarith
    _ = 100 := by norm_num
  refine ⟨htot, hon, heff, hle, ?_, ?_⟩
  · rw [heff]
    exact_mod_cast jround_nonneg hqpos
  · rw [heff]
    exact_mod_cast jround_le_100 hq100

/-- Witness for C10 at a concrete driver: a first on-time delivery gives
1/1 counters and efficiency 100. -/
theorem updateDeliveryStats_spec_witness :
    (Driver.mk 8 [1, 2, 3, 4, 5, 6, 7] true 100 4 2 0 .normal).onTimeDeliveries ≤
      (Driver.mk 8 [1, 2, 3, 4, 5, 6, 7] true 100 4 2 0 .normal).totalDeliveries ∧
    ((updateDeliveryStats (Driver.mk 8 [1, 2, 3, 4, 5, 6, 7] true 100 4 2 0 .normal) true).totalDeliveries =
      (Driver.mk 8 [1, 2, 3, 4, 5, 6, 7] true 100 4 2 0 .normal).totalDeliveries + 1 ∧
    (updateDeliveryStats (Driver.mk 8 [1, 2, 3, 4, 5, 6, 7] true 100 4 2 0 .normal) true).onTimeDeliveries =
      (Driver.mk 8 [1, 2, 3, 4, 5, 6, 7] true 100 4 2 0 .normal).onTimeDeliveries + (if true then 1 else 0) ∧
    (updateDeliveryStats (Driver.mk 8 [1, 2, 3, 4, 5, 6, 7] true 100 4 2 0 .normal) true).efficiency =
      ((jround (((updateDeliveryStats (Driver.mk 8 [1, 2, 3, 4, 5, 6, 7] true 100 4 2 0 .normal) true).onTimeDeliveries : ℚ) /
        ((updateDeliveryStats (Driver.mk 8 [1, 2, 3, 4, 5, 6, 7] true 100 4 2 0 .normal) true).totalDeliveries : ℚ) * 100)) : ℚ) ∧
    (updateDeliveryStats (Driver.mk 8 [1, 2, 3, 4, 5, 6, 7] true 100 4 2 0 .normal) true).onTimeDeliveries ≤
      (updateDeliveryStats (Driver.mk 8 [1, 2, 3, 4, 5, 6, 7] true 100 4 2 0 .normal) true).totalDeliveries ∧
    0 ≤ (updateDeliveryStats (Driver.mk 8 [1, 2, 3, 4, 5, 6, 7] true 100 4 2 0 .normal) true).efficiency ∧
    (updateDeliveryStats (Driver.mk 8 [1, 2, 3, 4, 5, 6, 7] true 100 4 2 0 .normal) true).efficiency ≤ 100) :=
  ⟨by norm_num,
    updateDeliveryStats_spec (Driver.mk 8 [1, 2, 3, 4, 5, 6, 7] true 100 4 2 0 .normal) true (by norm_num)⟩

/-- The `results` sub-document of a simulation run
(`simulation.model.js`); `driverUtilization` may be unset. -/
structure SimResults where
  totalProfit : ℚ
  efficiencyScore : ℚ
  onTimeCount : ℕ
  lateCount : ℕ
  totalOrders : ℕ
  fuelTotal : ℚ
  penalties : ℚ
  bonuses : ℚ
  driverUtilization : Option ℚ
  deriving DecidableEq, Repr

/-- A simulation document as seen by `calculateROI` and the pre-save hook:
its `inputs.availableDrivers`, its `results`, and whether the `results`
path is modified in this save (`this.isModified('results')`). -/
structure Simulation where
  availableDrivers : ℕ
  results : SimResults
  resultsModified : Bool
  deriving DecidableEq, Repr

/-- `simulationSchema.methods.calculateROI()`:
`totalCosts = fuelCostBreakdown.total + penalties`,
`totalRevenue = totalProfit + totalCosts`, and the result is
`Math.round(((totalRevenue - totalCosts) / totalCosts) * 100)` when
`totalCosts > 0`, else `0`. -/
def calculateROI (s : Simulation) : ℤ :=
  let totalCosts := s.results.fuelTotal + s.results.penalties
  let totalRevenue := s.results.totalProfit + totalCosts
  if totalCosts > 0 then jround ((totalRevenue - totalCosts) / totalCosts * 100) else 0

/-- JavaScript falsiness of the possibly-unset numeric field
`this.results.driverUtilization`: unset or `0`. -/
def jsFalsy : Option ℚ → Bool
  | none => true
  | some x => decide (x = 0)

/-- First statement of the `pre('save')` hook body: when
`driverUtilization` is falsy and `availableDrivers` is truthy, set
`driverUtilization = Math.min(100, Math.round(totalOrders/availableDrivers*10))`. -/
def utilStep (s : Simulation) : Simulation :=
  if jsFalsy s.results.driverUtilization ∧ s.availableDrivers ≠ 0 then
    { s with results := { s.results with
      driverUtilization :=
        some ((min 100 (jround ((s.results.totalOrders : ℚ) /
          (s.availableDrivers : ℚ) * 10)) : ℤ) : ℚ) } }
  else s

/-- Second statement of the `pre('save')` hook body: when
`totalOrders > 0`, set `efficiencyScore = Math.round(onTimeCount/totalOrders*100)`. -/
def effStep (s : Simulation) : Simulation :=
  if 0 < s.results.totalOrders then
    { s with results := { s.results with
      efficiencyScore :=
        ((jround ((s.results.onTimeCount : ℚ) /
          (s.results.totalOrders : ℚ) * 100)) : ℚ) } }
  else s

/-- `simulationSchema.pre('save')`: when `this.isModified('results')`, run
the utilization statement and then the efficiency statement. -/
def preSave (s : Simulation) : Simulation :=
  if s.resultsModified then effStep (utilStep s) else s

/-- The utilization statement leaves `totalOrders` unchanged. -/
lemma utilStep_totalOrders (s : Simulation) :
    (utilStep s).results.totalOrders = s.results.totalOrders := by
  unfold utilStep; split <;> rfl

/-- The utilization statement leaves `onTimeCount` unchanged. -/
lemma utilStep_onTimeCount (s : Simulation) :
    (utilStep s).results.onTimeCount = s.results.onTimeCount := by
  unfold utilStep; split <;> rfl

/-- The utilization statement leaves `efficiencyScore` unchanged. -/
lemma utilStep_efficiencyScore (s : Simulation) :
    (utilStep s).results.efficiencyScore = s.results.efficiencyScore := by
  unfold utilStep; split <;> rfl

/-- The efficiency statement leaves `driverUtilization` unchanged. -/
lemma effStep_driverUtilization (s : Simulation) :
    (effStep s).results.driverUtilization = s.results.driverUtilization := by
  unfold effStep; split <;> rfl

/-- Claim C5 counterexample: a modified-results save with `totalOrders = 0`
and a previously stored `efficiencyScore = 37` keeps 37 — the finalize hook
does not set `efficiencyScore` to 0 when `totalOrders = 0`. -/
theorem preSave_keeps_stale_efficiencyScore :
    (preSave ⟨5, ⟨0, 37, 0, 0, 0, 0, 0, 0, some 50⟩, true⟩).results.totalOrders = 0 ∧
    (preSave ⟨5, ⟨0, 37, 0, 0, 0, 0, 0, 0, some 50⟩, true⟩).results.efficiencyScore = 37 ∧
    (37 : ℚ) ≠ 0 := by
  refine ⟨?_, ?_, by norm_num⟩ <;> norm_num [preSave, utilStep, effStep, jsFalsy]

/-- Claim C5 (amended): on a modified-results save the hook recomputes
`efficiencyScore = round(onTimeCount/totalOrders * 100)` only when
`totalOrders > 0`; when `totalOrders = 0` it leaves `efficiencyScore`
unchanged (no division is performed), rather than setting it to 0. -/
theorem preSave_efficiencyScore_spec (s : Simulation) (hm : s.resultsModified = true) :
    (s.results.totalOrders = 0 →
      (preSave s).results.efficiencyScore = s.results.efficiencyScore) ∧
    (0 < s.results.totalOrders →
      (preSave s).results.efficiencyScore =
        ((jround ((s.results.onTimeCount : ℚ) / (s.results.totalOrders : ℚ) * 100)) : ℚ)) := by
  constructor
  · intro h
    have hnopos : ¬ 0 < (utilStep s).results.totalOrders := by
      rw [utilStep_totalOrders, h]
      exact lt_irrefl 0
    simp only [preSave, hm, if_true, effStep]
    rw [if_neg hnopos]
    exact utilStep_efficiencyScore s
  · intro h
    have hpos : 0 < (utilStep s).results.totalOrders := by rwa [utilStep_totalOrders]
    simp only [preSave, hm, if_true, effStep]
    rw [if_pos hpos]
    simp only [utilStep_onTimeCount, utilStep_totalOrders]

/-- Witness for C5 (amended) at a concrete simulation: 3 of 4 orders on
time gives efficiency `round 75 = 75` on save. -/
theorem preSave_efficiencyScore_spec_witness :
    (Simulation.mk 2 ⟨0, 0, 3, 1, 4, 0, 0, 0, some 50⟩ true).resultsModified = true ∧
    (((Simulation.mk 2 ⟨0, 0, 3, 1, 4, 0, 0, 0, some 50⟩ true).results.totalOrders = 0 →
      (preSave (Simulation.mk 2 ⟨0, 0, 3, 1, 4, 0, 0, 0, some 50⟩ true)).results.efficiencyScore =
        (Simulation.mk 2 ⟨0, 0, 3, 1, 4, 0, 0, 0, some 50⟩ true).results.efficiencyScore) ∧
    (0 < (Simulation.mk 2 ⟨0, 0, 3, 1, 4, 0, 0, 0, some 50⟩ true).results.totalOrders →
      (preSave (Simulation.mk 2 ⟨0, 0, 3, 1, 4, 0, 0, 0, some 50⟩ true)).results.efficiencyScore =
        ((jround (((Simulation.mk 2 ⟨0, 0, 3, 1, 4, 0, 0, 0, some 50⟩ true).results.onTimeCount : ℚ) /
          ((Simulation.mk 2 ⟨0, 0, 3, 1, 4, 0, 0, 0, some 50⟩ true).results.totalOrders : ℚ) * 100)) : ℚ))) :=
  ⟨rfl, preSave_efficiencyScore_spec (Simulation.mk 2 ⟨0, 0, 3, 1, 4, 0, 0, 0, some 50⟩ true) rfl⟩

/-- Claim C6 counterexample: a modified-results save with a stored (truthy)
`driverUtilization = 50` and changed `totalOrders = 20`, `availableDrivers = 2`
keeps 50, although `min(100, round(20/2*10)) = 100` — the hook does not
recompute a utilization that is already set. -/
theorem preSave_keeps_stale_driverUtilization :
    (preSave ⟨2, ⟨0, 0, 0, 0, 20, 0, 0, 0, some 50⟩, true⟩).results.driverUtilization = some 50 ∧
    ((min 100 (jround ((20 : ℚ) / (2 : ℚ) * 10)) : ℤ) : ℚ) = 100 ∧
    (50 : ℚ) ≠ 100 := by
  refine ⟨?_, ?_, by norm_num⟩
  · norm_num [preSave, utilStep, effStep, jsFalsy]
  · norm_num [jround]

/-- Claim C6 (amended): on a modified-results save the hook sets
`driverUtilization = min(100, round((totalOrders/availableDrivers) * 10))`
only when the stored `driverUtilization` is falsy (unset or 0) and
`availableDrivers` is nonzero; an already-set nonzero utilization is kept
unchanged even when `totalOrders` or `availableDrivers` changed. -/
theorem preSave_driverUtilization_spec (s : Simulation) (hm : s.resultsModified = true) :
    (jsFalsy s.results.driverUtilization = true → s.availableDrivers ≠ 0 →
      (preSave s).results.driverUtilization =
        some ((min 100 (jround ((s.results.totalOrders : ℚ) /
          (s.availableDrivers : ℚ) * 10)) : ℤ) : ℚ)) ∧
    (jsFalsy s.results.driverUtilization = false →
      (preSave s).results.driverUtilization = s.results.driverUtilization) := by
  constructor
  · intro hf hnz
    simp only [preSave, hm, if_true]
    rw [effStep_driverUtilization, utilStep, if_pos ⟨hf, hnz⟩]
  · intro hf
    simp only [preSave, hm, if_true]
    rw [effStep_driverUtilization, utilStep, if_neg]
    rintro ⟨h1, -⟩
    rw [hf] at h1
    exact Bool.false_ne_true h1

/-- Witness for C6 (amended) at a concrete simulation: unset utilization,
8 orders over 4 drivers, gives `min(100, round 20) = 20`. -/
theorem preSave_driverUtilization_spec_witness :
    (Simulation.mk 4 ⟨0, 0, 0, 0, 8, 0, 0, 0, none⟩ true).resultsModified = true ∧
    ((jsFalsy (Simulation.mk 4 ⟨0, 0, 0, 0, 8, 0, 0, 0, none⟩ true).results.driverUtilization = true →
      (Simulation.mk 4 ⟨0, 0, 0, 0, 8, 0, 0, 0, none⟩ true).availableDrivers ≠ 0 →
      (preSave (Simulation.mk 4 ⟨0, 0, 0, 0, 8, 0, 0, 0, none⟩ true)).results.driverUtilization =
        some ((min 100 (jround (((Simulation.mk 4 ⟨0, 0, 0, 0, 8, 0, 0, 0, none⟩ true).results.totalOrders : ℚ) /
          ((Simulation.mk 4 ⟨0, 0, 0, 0, 8, 0, 0, 0, none⟩ true).availableDrivers : ℚ) * 10)) : ℤ) : ℚ)) ∧
    (jsFalsy (Simulation.mk 4 ⟨0, 0, 0, 0, 8, 0, 0, 0, none⟩ true).results.driverUtilization = false →
      (preSave (Simulation.mk 4 ⟨0, 0, 0, 0, 8, 0, 0, 0, none⟩ true)).results.driverUtilization =
        (Simulation.mk 4 ⟨0, 0, 0, 0, 8, 0, 0, 0, none⟩ true).results.driverUtilization)) :=
  ⟨rfl, preSave_driverUtilization_spec (Simulation.mk 4 ⟨0, 0, 0, 0, 8, 0, 0, 0, none⟩ true) rfl⟩

/-- Claim C7: `calculateROI` returns 0 when
`totalCosts = fuelCostBreakdown.total + penalties` is 0, and otherwise
`round(((totalRevenue - totalCosts)/totalCosts) * 100)` with
`totalRevenue = totalProfit + totalCosts`, which equals
`round(totalProfit/totalCosts * 100)`. -/
theorem calculateROI_spec (s : Simulation) :
    (s.results.fuelTotal + s.results.penalties = 0 → calculateROI s = 0) ∧
    (0 < s.results.fuelTotal + s.results.penalties →
      calculateROI s =
        jround ((((s.results.totalProfit + (s.results.fuelTotal + s.results.penalties)) -
          (s.results.fuelTotal + s.results.penalties)) /
          (s.results.fuelTotal + s.results.penalties)) * 100) ∧
      calculateROI s =
        jround (s.results.totalProfit / (s.results.fuelTotal + s.results.penalties) * 100)) := by
  constructor
  · intro h0
    simp [calculateROI, h0]
  · intro hpos
    have hif : calculateROI s =
        jround ((s.results.totalProfit + (s.results.fuelTotal + s.results.penalties) -
          (s.results.fuelTotal + s.results.penalties)) /
          (s.results.fuelTotal + s.results.penalties) * 100) := by
      simp only [calculateROI]
      rw [if_pos hpos]
    refine ⟨hif, ?_⟩
    rw [hif]
    congr 1
    ring

/-- Witness for C7 at a concrete run: profit 50 over costs 60 + 40 gives
an ROI of `round(50/100 * 100)`. -/
theorem calculateROI_spec_witness :
    (0 : ℚ) < (Simulation.mk 1 ⟨50, 0, 0, 0, 0, 60, 40, 0, none⟩ false).results.fuelTotal +
      (Simulation.mk 1 ⟨50, 0, 0, 0, 0, 60, 40, 0, none⟩ false).results.penalties ∧
    calculateROI (Simulation.mk 1 ⟨50, 0, 0, 0, 0, 60, 40, 0, none⟩ false) =
      jround ((Simulation.mk 1 ⟨50, 0, 0, 0, 0, 60, 40, 0, none⟩ false).results.totalProfit /
        ((Simulation.mk 1 ⟨50, 0, 0, 0, 0, 60, 40, 0, none⟩ false).results.fuelTotal +
         (Simulation.mk 1 ⟨50, 0, 0, 0, 0, 60, 40, 0, none⟩ false).results.penalties) * 100) :=
  ⟨by norm_num,
    ((calculateROI_spec (Simulation.mk 1 ⟨50, 0, 0, 0, 0, 60, 40, 0, none⟩ false)).2 (by norm_num)).2⟩

end GreenCart

namespace GreenCart

/-- Digit character class `[0-9]` of the time regex, as a test on the
character's code point (`'0'` is 48, `'9'` is 57). -/
def isDigitCh (c : Char) : Bool := 48 ≤ c.toNat && c.toNat ≤ 57

/-- Numeric value of a digit character. -/
def dval (c : Char) : ℕ := c.toNat - 48

/-- Minute part `[0-5][0-9]` of the time regex (`'5'` is 53). -/
def minutePair (m₁ m₂ : Char) : Bool :=
  (48 ≤ m₁.toNat && m₁.toNat ≤ 53) && isDigitCh m₂

/-- Two-digit hour alternative of the regex: `[0-1][0-9]` (the optional
`[0-1]` present) or `2[0-3]` (`'1'` is 49, `'2'` is 50, `'3'` is 51). -/
def hourTwo (h₁ h₂ : Char) : Bool :=
  ((h₁.toNat == 48 || h₁.toNat == 49) && isDigitCh h₂) ||
    (h₁.toNat == 50 && (48 ≤ h₂.toNat && h₂.toNat ≤ 51))

/-- The language of the anchored validator regex
`/^([0-1]?[0-9]|2[0-3]):[0-5][0-9]$/` used for `deliveryTime`,
`actualDeliveryTime` and `inputs.routeStartTime`: a one-digit hour (the
optional `[0-1]` absent) or a two-digit hour, a literal `':'` (code point
58), and a two-digit minute. -/
def timeRegexAccepts : List Char → Bool
  | [h, c, m₁, m₂] => (c.toNat == 58) && isDigitCh h && minutePair m₁ m₂
  | [h₁, h₂, c, m₁, m₂] => (c.toNat == 58) && hourTwo h₁ h₂ && minutePair m₁ m₂
  | _ => false

/-- The schema `match` validator on a time string. -/
def timeMatches (s : String) : Bool := timeRegexAccepts s.data

/-- Spec-side numeric reading of a candidate time string: the hour and
minute values when the string has the shape digit(s) `':'` two digits,
with no range constraint beyond being digits. -/
def parseTime : List Char → Option (ℕ × ℕ)
  | [h, c, m₁, m₂] =>
    if c.toNat = 58 ∧ isDigitCh h ∧ isDigitCh m₁ ∧ isDigitCh m₂ then
      some (dval h, 10 * dval m₁ + dval m₂)
    else none
  | [h₁, h₂, c, m₁, m₂] =>
    if c.toNat = 58 ∧ isDigitCh h₁ ∧ isDigitCh h₂ ∧ isDigitCh m₁ ∧ isDigitCh m₂ then
      some (10 * dval h₁ + dval h₂, 10 * dval m₁ + dval m₂)
    else none
  | _ => none

/-- The claim's reading of the validator: only two-digit hours `00`-`23`
with minutes `00`-`59` are accepted. -/
def claimTimeOK : List Char → Bool
  | [h₁, h₂, c, m₁, m₂] =>
    (c.toNat == 58) && isDigitCh h₁ && isDigitCh h₂ && isDigitCh m₁ && isDigitCh m₂ &&
      decide (10 * dval h₁ + dval h₂ ≤ 23) && decide (10 * dval m₁ + dval m₂ ≤ 59)
  | _ => false

/-- Claim C8 counterexample: the validator accepts the one-digit-hour
string `"9:30"`, which is not of the claimed two-digit `HH:MM` shape, so
such strings are not rejected. -/
theorem timeMatches_accepts_one_digit_hour :
    timeMatches "9:30" = true ∧ claimTimeOK "9:30".data = false := by
  constructor <;> rfl

/-- Claim C8 (amended): the validator accepts a string exactly when it is a
one- or two-digit hour of value at most 23, a `':'`, and a two-digit minute
of value at most 59 — in particular one-digit hours such as `"9:30"` are
accepted, not rejected. -/
theorem timeRegexAccepts_iff_hour_le_23_minute_le_59 :
    ∀ l : List Char, timeRegexAccepts l = true ↔
      ∃ h m, parseTime l = some (h, m) ∧ h ≤ 23 ∧ m ≤ 59 := by
  intro l
  match l with
  | [] => simp [timeRegexAccepts, parseTime]
  | [a] => simp [timeRegexAccepts, parseTime]
  | [a, b] => simp [timeRegexAccepts, parseTime]
  | [a, b, c] => simp [timeRegexAccepts, parseTime]
  | [h, c, m₁, m₂] =>
    simp only [timeRegexAccepts, parseTime, isDigitCh, minutePair, dval,
      Bool.and_eq_true, Bool.or_eq_true, beq_iff_eq, decide_eq_true_eq,
      Option.ite_none_right_eq_some, Option.some_inj, Prod.mk.injEq]
    constructor
    · rintro ⟨⟨hc, hh⟩, hm⟩
      exact ⟨h.toNat - 48, 10 * (m₁.toNat - 48) + (m₂.toNat - 48),
        ⟨⟨hc, by omega, by omega, by omega⟩, rfl, rfl⟩, by omega, by omega⟩
    · rintro ⟨hv, mv, ⟨⟨hc, hd, hm₁, hm₂⟩, hhv, hmv⟩, hh23, hm59⟩
      refine ⟨⟨hc, by omega, by omega⟩, by omega, by omega⟩
  | [h₁, h₂, c, m₁, m₂] =>
    simp only [timeRegexAccepts, parseTime, isDigitCh, minutePair, hourTwo, dval,
      Bool.and_eq_true, Bool.or_eq_true, beq_iff_eq, decide_eq_true_eq,
      Option.ite_none_right_eq_some, Option.some_inj, Prod.mk.injEq]
    constructor
    · rintro ⟨⟨hc, hh⟩, hm⟩
      exact ⟨10 * (h₁.toNat - 48) + (h₂.toNat - 48), 10 * (m₁.toNat - 48) + (m₂.toNat - 48),
        ⟨⟨hc, by omega, by omega, by omega, by omega⟩, rfl, rfl⟩, by omega, by omega⟩
    · rintro ⟨hv, mv, ⟨⟨hc, hd₁, hd₂, hm₁, hm₂⟩, hhv, hmv⟩, hh23, hm59⟩
      refine ⟨⟨hc, ?_⟩, by omega, by omega⟩
      omega
  | a :: b :: c :: d :: e :: f :: rest => simp [timeRegexAccepts, parseTime]

end GreenCart
